import Mathlib

/-!
Shallow embedding of `scripts/mbedtls_framework/config_common.py` (Mbed TLS
configuration-file manipulation library) and proofs about its behaviour.

Conventions of the embedding:
* Python strings are Lean `String`s; `None`-or-string values are `Option String`.
* Python exceptions are modelled by `Except PyError`; an operation that can
  raise returns `Except PyError result`.
* The `Setting.configfile` back-reference is modelled as an index into the
  owning `Config.configfiles` list (the spec itself recommends this encoding).
* Python's `dict` of settings is modelled as an insertion-ordered association
  list; `re` character classes are modelled over the ASCII range.
-/

/-- Python exception kinds raised by the code paths modelled here. -/
inductive PyError where
  | keyError
  | typeError
  | attributeError
  | indexError
deriving DecidableEq, Repr

/-- Python whitespace (regex class backslash-s and bare `str.rstrip`), ASCII range:
space, tab, newline, carriage return, vertical tab, form feed. -/
def isPyWs (c : Char) : Bool :=
  c = ' ' || c = '\t' || c = '\n' || c = '\r' || c = Char.ofNat 11 || c = Char.ofNat 12

/-- Regex word-constituent class (backslash-w), ASCII range: letters, digits, underscore. -/
def isWordChar (c : Char) : Bool :=
  c.isAlphanum || c = '_'

/-- Python `line.rstrip('\r\n')`: drop trailing carriage returns and line feeds. -/
def rstripCRLF (s : String) : String :=
  ⟨(s.data.reverse.dropWhile (fun c => c = '\r' || c = '\n')).reverse⟩

/-- Python `str.rstrip()` with no argument: drop trailing whitespace. -/
def pyRstrip (s : String) : String :=
  ⟨(s.data.reverse.dropWhile isPyWs).reverse⟩

/-- Python truthiness of an `Optional[str]`: `None` and the empty string are falsy. -/
def truthyOpt : Option String → Bool
  | none => false
  | some s => s ≠ ""

/-- Python `==` between two `Optional[str]` values: `None == None` is `True`,
`None` never equals a string, strings compare by contents. -/
def pyEqOpt : Option String → Option String → Bool
  | none, none => true
  | some a, some b => a = b
  | _, _ => false

/-- Python `value = setting.value; if value is None: value = ''`. -/
def pyStr : Option String → String
  | none => ""
  | some s => s

/-- Representation of one configuration setting (`class Setting`).
The Python `section` attribute is named `sectionLabel` (`section` is reserved
in Lean); `configfile` is an index into the owning `Config.configfiles`. -/
structure Setting where
  active : Bool
  name : String
  value : Option String
  sectionLabel : Option String
  configfile : Nat
deriving DecidableEq, Repr

/-- One stored line form of a `ConfigFile`: either a verbatim line or the
template triple `(name, indentation, middle)` built in `_parse_line`. -/
inductive Template where
  | verbatim (line : String)
  | setting (name : String) (indentation : String) (middle : String)
deriving DecidableEq, Repr

/-- The tuple `(active, name, value, current_section)` yielded by `_parse_line`. -/
structure SettingEvent where
  active : Bool
  name : String
  value : String
  sectionLabel : Option String
deriving DecidableEq, Repr

/-- In-memory state of `class ConfigFile` (after `__init__` has resolved the
filename; the candidate-path search is I/O and outside the model). -/
structure ConfigFile where
  filename : String
  templates : List Template
  currentSection : Option String
  inclusionGuard : Option String
  modified : Bool
deriving DecidableEq, Repr

/-- Embeds `ConfigFile.__init__`: fresh state for a resolved filename. -/
def ConfigFile.init (filename : String) : ConfigFile :=
  { filename := filename
  , templates := []
  , currentSection := none
  , inclusionGuard := none
  , modified := false }

/-- In-memory state of `class Config`: the ordered settings dict and the list
of owned configuration files. -/
structure Config where
  settings : List (String × Setting)
  configfiles : List ConfigFile
deriving DecidableEq, Repr

/-- Result of matching `_config_line_regexp` (the alternation of the define,
ifndef and section patterns) against a line: which alternative matched, with
its captured groups. Groups of the other alternatives are unmatched (`None`),
see the accessors below. -/
inductive LineMatch where
  | defineM (indentation : String) (commented : String) (define : String)
      (name : String) (arguments : String) (separator : String) (value : String)
  | ifndefM (guard : String)
  | sectionM (sectionText : String)
deriving DecidableEq, Repr

/-- Accessor for `m.group('section')`. -/
def LineMatch.gSection : LineMatch → Option String
  | .sectionM s => some s
  | _ => none

/-- Accessor for `m.group('inclusion_guard')`. -/
def LineMatch.gInclusionGuard : LineMatch → Option String
  | .ifndefM g => some g
  | _ => none

/-- Accessor for `m.group('commented_out')`. -/
def LineMatch.gCommented : LineMatch → Option String
  | .defineM _ c _ _ _ _ _ => some c
  | _ => none

/-- Accessor for `m.group('name')`. -/
def LineMatch.gName : LineMatch → Option String
  | .defineM _ _ _ n _ _ _ => some n
  | _ => none

/-- Accessor for `m.group('value')`. -/
def LineMatch.gValue : LineMatch → Option String
  | .defineM _ _ _ _ _ _ v => some v
  | _ => none

/-- The `(?P<define>#\s*define\s+)` piece of `_define_line_regexp`: a hash,
optional whitespace, the word `define`, then at least one whitespace character.
Returns the matched text and the rest of the line. -/
def matchDefineKw : List Char → Option (List Char × List Char)
  | '#' :: rest =>
    let (ws1, r1) := rest.span isPyWs
    match r1 with
    | 'd' :: 'e' :: 'f' :: 'i' :: 'n' :: 'e' :: r2 =>
      let (ws2, r3) := r2.span isPyWs
      if ws2.isEmpty then none
      else some ('#' :: ws1 ++ ('d' :: 'e' :: 'f' :: 'i' :: 'n' :: 'e' :: ws2), r3)
    | _ => none
  | _ => none

/-- Deterministic matcher for `_define_line_regexp`:
`(?P<indentation>\s*)(?P<commented_out>(//\s*)?)(?P<define>#\s*define\s+)`
`(?P<name>\w+)(?P<arguments>(?:\((?:\w|\s|,)*\))?)(?P<separator>\s*)(?P<value>.*)`.
The pattern is deterministic on its inputs: every backtracking opportunity of the
Python regex is cut off by disjoint follow sets (whitespace never starts `#`, a
word character never starts `(`), except the optional groups, which fail to empty
exactly as encoded here. -/
def matchDefine (cs : List Char) : Option LineMatch :=
  let (ind, r1) := cs.span isPyWs
  let (commented, r2) :=
    match r1 with
    | '/' :: '/' :: r =>
      let (ws, r') := r.span isPyWs
      ('/' :: '/' :: ws, r')
    | _ => ([], r1)
  match matchDefineKw r2 with
  | none => none
  | some (defkw, r3) =>
    let (nm, r4) := r3.span isWordChar
    if nm.isEmpty then none
    else
      let (args, r5) :=
        match r4 with
        | '(' :: r =>
          let (inner, r') := r.span (fun c => isWordChar c || isPyWs c || c = ',')
          match r' with
          | ')' :: r'' => ('(' :: inner ++ [')'], r'')
          | _ => (([] : List Char), r4)
        | _ => (([] : List Char), r4)
      let (sep, r6) := r5.span isPyWs
      some (.defineM ⟨ind⟩ ⟨commented⟩ ⟨defkw⟩ ⟨nm⟩ ⟨args⟩ ⟨sep⟩ ⟨r6⟩)

/-- Deterministic matcher for `_ifndef_line_regexp`:
`#ifndef (?P<inclusion_guard>\w+)` anchored at the start of the line. -/
def matchIfndef (cs : List Char) : Option LineMatch :=
  match cs with
  | '#' :: 'i' :: 'f' :: 'n' :: 'd' :: 'e' :: 'f' :: ' ' :: r =>
    let (g, _) := r.span isWordChar
    if g.isEmpty then none else some (.ifndefM ⟨g⟩)
  | _ => none

/-- Deterministic matcher for `_section_line_regexp`:
`\s*/?\*+\s*[\\@]name\s+SECTION:\s*(?P<section>.*)[ */]*`. The greedy `.*`
captures the whole remainder, so the trailing `[ */]*` always matches empty. -/
def matchSection (cs : List Char) : Option LineMatch :=
  let (_, r1) := cs.span isPyWs
  let r2 := match r1 with
    | '/' :: r => r
    | _ => r1
  let (stars, r3) := r2.span (fun c => c = '*')
  if stars.isEmpty then none
  else
    let (_, r4) := r3.span isPyWs
    match r4 with
    | c :: r5 =>
      if c = '\\' || c = '@' then
        match r5 with
        | 'n' :: 'a' :: 'm' :: 'e' :: r6 =>
          let (ws, r7) := r6.span isPyWs
          if ws.isEmpty then none
          else
            match r7 with
            | 'S' :: 'E' :: 'C' :: 'T' :: 'I' :: 'O' :: 'N' :: ':' :: r8 =>
              let (_, r9) := r8.span isPyWs
              some (.sectionM ⟨r9⟩)
            | _ => none
        | _ => none
      else none
    | [] => none

/-- Python `re.match(_config_line_regexp, line)`: try the three alternatives
left to right (define, ifndef, section), anchored at the start of the line. -/
def matchConfigLine (line : String) : Option LineMatch :=
  let cs := line.data
  (matchDefine cs).orElse fun _ =>
    (matchIfndef cs).orElse fun _ =>
      matchSection cs

/-- Embeds `ConfigFile._parse_line`: classify one line, append the corresponding
template, and return the settings tuple, if any. Reaching the final branch
on a non-define match (a second `#ifndef` line, or a section marker with an
empty title) builds the template by concatenating unmatched (`None`) groups,
which in Python raises `TypeError`. -/
def ConfigFile.parseLine (f : ConfigFile) (line0 : String) :
    Except PyError (ConfigFile × Option SettingEvent) :=
  let line := rstripCRLF line0
  match matchConfigLine line with
  | none => .ok ({ f with templates := f.templates ++ [.verbatim line] }, none)
  | some m =>
    if truthyOpt m.gSection then
      .ok ({ f with currentSection := m.gSection
                  , templates := f.templates ++ [.verbatim line] }, none)
    else if truthyOpt m.gInclusionGuard && f.inclusionGuard.isNone then
      .ok ({ f with inclusionGuard := m.gInclusionGuard
                  , templates := f.templates ++ [.verbatim line] }, none)
    else
      let active := !truthyOpt m.gCommented
      let name := m.gName
      let value := m.gValue
      if pyEqOpt name f.inclusionGuard && pyEqOpt value (some "") then
        .ok ({ f with templates := f.templates ++ [.verbatim line] }, none)
      else
        match m with
        | .defineM ind _ defkw nm args sep v =>
          .ok ({ f with templates :=
                   f.templates ++ [.setting nm ind (defkw ++ nm ++ args ++ sep)] },
               some ⟨active, nm, v, f.currentSection⟩)
        | _ => .error .typeError

/-- Worker for `ConfigFile.parse_file`: fold `_parse_line` over the lines,
collecting the yielded settings tuples. -/
def parseFileGo (f : ConfigFile) (acc : List SettingEvent) :
    List String → Except PyError (ConfigFile × List SettingEvent)
  | [] => .ok ({ f with currentSection := none }, acc)
  | l :: ls =>
    match f.parseLine l with
    | .error e => .error e
    | .ok (f', ev) => parseFileGo f' (acc ++ ev.toList) ls

/-- Embeds `ConfigFile.parse_file`: parse every line in order and reset
`current_section` to `None` at the end. -/
def ConfigFile.parseFile (f : ConfigFile) (lines : List String) :
    Except PyError (ConfigFile × List SettingEvent) :=
  parseFileGo f [] lines

/-- Lookup in the settings dict (`name in self.settings` / `self.settings[name]`):
first entry with the given key. -/
def lookupSetting : List (String × Setting) → String → Option Setting
  | [], _ => none
  | (k, s) :: rest, n => if k = n then some s else lookupSetting rest n

/-- In-place update of the entry for an existing key
(`self.settings[name].field = ...` on the shared `Setting` object). -/
def updateSetting : List (String × Setting) → String → (Setting → Setting) →
    List (String × Setting)
  | [], _, _ => []
  | (k, s) :: rest, n, f =>
    if k = n then (k, f s) :: rest else (k, s) :: updateSetting rest n f

/-- Python dict assignment `self.settings[name] = setting`: replace the entry
if the key is present, otherwise append it (dicts preserve insertion order). -/
def dictSet (l : List (String × Setting)) (n : String) (v : Setting) :
    List (String × Setting) :=
  if (lookupSetting l n).isSome then updateSetting l n (fun _ => v) else l ++ [(n, v)]

/-- Effect of `setting.configfile.modified = True`: set the `modified` flag of
the file at the given index. -/
def markFileModified : List ConfigFile → Nat → List ConfigFile
  | [], _ => []
  | f :: rest, 0 => { f with modified := true } :: rest
  | f :: rest, n + 1 => f :: markFileModified rest n

/-- The file at an index, `None` when out of range. -/
def fileAt : List ConfigFile → Nat → Option ConfigFile
  | [], _ => none
  | f :: _, 0 => some f
  | _ :: rest, n + 1 => fileAt rest n

/-- Whether the file at the given index exists and has `modified = True`. -/
def fileModified (files : List ConfigFile) (i : Nat) : Bool :=
  match fileAt files i with
  | some f => f.modified
  | none => false

/-- Embeds `Config.__contains__`: the symbol is in the dict and its setting is active. -/
def Config.contains (c : Config) (name : String) : Bool :=
  match lookupSetting c.settings name with
  | some s => s.active
  | none => false

/-- Embeds `Config.known`: a define for the name is present, commented out or not. -/
def Config.known (c : Config) (name : String) : Bool :=
  (lookupSetting c.settings name).isSome

/-- Embeds `Config.__getitem__`: `return self.settings[name].value`, raising `KeyError`
when `name` is not a key of the dict. -/
def Config.getItem (c : Config) (name : String) : Except PyError (Option String) :=
  match lookupSetting c.settings name with
  | some s => .ok s.value
  | none => .error .keyError

/-- Embeds `Config.get`: `if name in self.settings: return self.settings[name].value`
`else: return default`. -/
def Config.get (c : Config) (name : String) (default : Option String) : Option String :=
  match lookupSetting c.settings name with
  | some s => s.value
  | none => default

/-- The dirty-flag guard `if setting != value:` of `Config.__setitem__` compares
the `Setting` object itself (not `setting.value`) with the new value; a `Setting`
instance is never equal to a string or to `None`, so in Python this test always
holds. -/
def settingNeValue (_s : Setting) (_v : Option String) : Bool :=
  true

/-- Embeds `Config.__setitem__`: look the setting up (raising `KeyError` when unknown),
mark the owning file modified when `setting != value`, then store the value. -/
def Config.setItem (c : Config) (name : String) (value : Option String) :
    Except PyError Config :=
  match lookupSetting c.settings name with
  | none => .error .keyError
  | some s =>
    let files :=
      if settingNeValue s value then markFileModified c.configfiles s.configfile
      else c.configfiles
    .ok { settings := updateSetting c.settings name (fun t => { t with value := value })
        , configfiles := files }

/-- Embeds `Config._get_configfile`: for a truthy known name the code evaluates
`self.get(name).configfile`, but `get` returns the stored value (a string, or
`None`), neither of which has a `configfile` attribute, so Python raises
`AttributeError`; otherwise return `self.configfiles[0]` (an `IndexError` when
the list is empty). -/
def Config.getConfigfile (c : Config) (name : Option String) : Except PyError Nat :=
  if truthyOpt name &&
      (match name with
       | some n => (lookupSetting c.settings n).isSome
       | none => false) then
    .error .attributeError
  else
    match c.configfiles with
    | [] => .error .indexError
    | _ :: _ => .ok 0

/-- Embeds `Config.filename`: the `filename` attribute of `self._get_configfile(name)`. -/
def Config.filename (c : Config) (name : Option String) : Except PyError String :=
  match c.getConfigfile name with
  | .error e => .error e
  | .ok i =>
    match fileAt c.configfiles i with
    | some f => .ok f.filename
    | none => .error .indexError

/-- Embeds `Config.set`: if `name` is known, mark the owning file modified when
`setting.value != value or not setting.active`, store the value unless it is
`None`, and activate the setting; otherwise create a fresh active `Setting`
owned by `self._get_configfile(name)` and mark that file modified. -/
def Config.set (c : Config) (name : String) (value : Option String) :
    Except PyError Config :=
  match lookupSetting c.settings name with
  | some s =>
    let files :=
      if s.value ≠ value || !s.active then markFileModified c.configfiles s.configfile
      else c.configfiles
    .ok { settings := updateSetting c.settings name
            (fun t => { t with value := if value.isSome then value else t.value
                             , active := true })
        , configfiles := files }
  | none =>
    match c.getConfigfile (some name) with
    | .error e => .error e
    | .ok i =>
      .ok { settings := dictSet c.settings name
              { active := true, name := name, value := value
              , sectionLabel := none, configfile := i }
          , configfiles := markFileModified c.configfiles i }

/-- Embeds `Config.unset`: do nothing for an unknown name; otherwise mark the owning
file modified when the setting was active, and deactivate it. -/
def Config.unset (c : Config) (name : String) : Config :=
  match lookupSetting c.settings name with
  | none => c
  | some s =>
    let files :=
      if s.active then markFileModified c.configfiles s.configfile else c.configfiles
    { settings := updateSetting c.settings name (fun t => { t with active := false })
    , configfiles := files }

/-- Worker for `Config.adapt`: run the adapter on each setting in order, record
the new active state, and mark the owning file modified on an actual flip. -/
def adaptGo (ad : String → Bool → Option String → Bool) :
    List (String × Setting) → List ConfigFile →
    List (String × Setting) × List ConfigFile
  | [], files => ([], files)
  | (k, s) :: rest, files =>
    let isActive := s.active
    let newActive := ad s.name s.active s.sectionLabel
    let files' :=
      if newActive ≠ isActive then markFileModified files s.configfile else files
    let (rest', files'') := adaptGo ad rest files'
    ((k, { s with active := newActive }) :: rest', files'')

/-- Embeds `Config.adapt`: run the adapter over every known symbol. -/
def Config.adapt (c : Config) (ad : String → Bool → Option String → Bool) : Config :=
  let (settings', files') := adaptGo ad c.settings c.configfiles
  { settings := settings', configfiles := files' }

/-- Worker for `Config.change_matching`: for each setting whose name the
compiled pattern matches, mark the owning file modified when the active state
actually changes and force the state to `enable`. -/
def changeMatchingGo (search : String → Bool) (enable : Bool) :
    List (String × Setting) → List ConfigFile →
    List (String × Setting) × List ConfigFile
  | [], files => ([], files)
  | (k, s) :: rest, files =>
    if search s.name then
      let files' :=
        if s.active ≠ enable then markFileModified files s.configfile else files
      let (rest', files'') := changeMatchingGo search enable rest files'
      ((k, { s with active := enable }) :: rest', files'')
    else
      let (rest', files') := changeMatchingGo search enable rest files
      ((k, s) :: rest', files')

/-- Embeds `Config.change_matching`: early return when the pattern list is empty;
otherwise apply the compiled search to every setting. The predicate `search`
stands for `re.compile('|'.join(regexs)).search`, which the model does not
reimplement; every theorem below holds for an arbitrary predicate. -/
def Config.changeMatching (c : Config) (regexs : List String)
    (search : String → Bool) (enable : Bool) : Config :=
  if regexs.isEmpty then c
  else
    let (settings', files') := changeMatchingGo search enable c.settings c.configfiles
    { settings := settings', configfiles := files' }

/-- Embeds `ConfigFile._format_template`: render one parameterized line. Python's
`middle[-1]` raises `IndexError` on an empty prefix; `not in '\t '` tests
membership of the last character in the two-character string tab-space. -/
def formatTemplate (setting : Setting) (indent middle : String) :
    Except PyError String :=
  let value := pyStr setting.value
  if value ≠ "" then
    match middle.data.getLast? with
    | none => .error .indexError
    | some c =>
      let middle' := if !(c = '\t' || c = ' ') then middle ++ " " else middle
      .ok (pyRstrip (indent ++ (if setting.active then "" else "//") ++ middle' ++ value))
  else
    .ok (pyRstrip (indent ++ (if setting.active then "" else "//") ++ pyRstrip middle ++ value))

/-- Embeds `ConfigFile.write_to_stream`: emit each template in order, verbatim lines
as they are, parameterized lines rendered from the settings dict (`KeyError`
when a referenced name is absent), each followed by a newline. The result is
the full text written to the stream. -/
def writeToStream (settings : List (String × Setting)) :
    List Template → Except PyError String
  | [] => .ok ""
  | t :: ts =>
    let lineE : Except PyError String :=
      match t with
      | .verbatim l => .ok l
      | .setting nm ind mid =>
        match lookupSetting settings nm with
        | none => .error .keyError
        | some s => formatTemplate s ind mid
    match lineE with
    | .error e => .error e
    | .ok line =>
      match writeToStream settings ts with
      | .error e => .error e
      | .ok rest => .ok (line ++ "\n" ++ rest)

/-- Embeds `ConfigFile.write`: default the target to the original path; when the file
is not modified and the target is the original path, perform no I/O (`.ok none`);
otherwise open the target and stream the rendered content (`.ok (some (target,
content))`). -/
def ConfigFile.write (f : ConfigFile) (settings : List (String × Setting))
    (filename? : Option String) : Except PyError (Option (String × String)) :=
  let filename :=
    match filename? with
    | none => f.filename
    | some fn => fn
  if !f.modified && filename = f.filename then .ok none
  else
    match writeToStream settings f.templates with
    | .error e => .error e
    | .ok content => .ok (some (filename, content))

/-- One call of the mutating-or-writing public API of `Config`, used to state
the sticky-dirty-flag invariant over arbitrary call sequences. -/
inductive Op where
  | setItem (name : String) (value : Option String)
  | set (name : String) (value : Option String)
  | unset (name : String)
  | adapt (ad : String → Bool → Option String → Bool)
  | changeMatching (regexs : List String) (search : String → Bool) (enable : Bool)
  | write (filename? : Option String)

/-- State transition of one `Op`. An operation that raises leaves the state
unchanged (each Python exception above is raised before any mutation);
`write` never touches the `Config` state. -/
def Op.apply (op : Op) (c : Config) : Config :=
  match op with
  | .setItem n v =>
    match c.setItem n v with
    | .ok c' => c'
    | .error _ => c
  | .set n v =>
    match c.set n v with
    | .ok c' => c'
    | .error _ => c
  | .unset n => c.unset n
  | .adapt ad => c.adapt ad
  | .changeMatching rs search en => c.changeMatching rs search en
  | .write _ => c

/-- Apply a sequence of API calls in order. -/
def applyOps (c : Config) (ops : List Op) : Config :=
  ops.foldl (fun c op => op.apply c) c

/-! Helper lemmas about the dictionary and file-list primitives. -/

theorem lookupSetting_updateSetting_self (l : List (String × Setting)) (n : String)
    (g : Setting → Setting) (s : Setting) (h : lookupSetting l n = some s) :
    lookupSetting (updateSetting l n g) n = some (g s) := by
  induction l with
  | nil => simp [lookupSetting] at h
  | cons p rest ih =>
    obtain ⟨k, t⟩ := p
    by_cases hk : k = n
    · subst hk
      simp [lookupSetting, updateSetting] at h ⊢
      simp [h]
    · simp [lookupSetting, updateSetting, hk] at h ⊢
      exact ih h

theorem lookupSetting_updateSetting_ne (l : List (String × Setting)) (n m : String)
    (g : Setting → Setting) (h : m ≠ n) :
    lookupSetting (updateSetting l n g) m = lookupSetting l m := by
  induction l with
  | nil => simp [updateSetting]
  | cons p rest ih =>
    obtain ⟨k, t⟩ := p
    by_cases hk : k = n
    · subst hk
      have : k ≠ m := fun hkm => h (hkm ▸ rfl)
      simp [lookupSetting, updateSetting, this]
    · by_cases hm : k = m
      · subst hm
        simp [lookupSetting, updateSetting, hk]
      · simp [lookupSetting, updateSetting, hk, hm, ih]

theorem lookupSetting_append_of_none (l l' : List (String × Setting)) (n : String)
    (h : lookupSetting l n = none) :
    lookupSetting (l ++ l') n = lookupSetting l' n := by
  induction l with
  | nil => simp
  | cons p rest ih =>
    obtain ⟨k, t⟩ := p
    by_cases hk : k = n
    · simp [lookupSetting, hk] at h
    · simp [lookupSetting, hk] at h ⊢
      exact ih h

theorem lookupSetting_append_left (l l' : List (String × Setting)) (n : String)
    (s : Setting) (h : lookupSetting l n = some s) :
    lookupSetting (l ++ l') n = some s := by
  induction l with
  | nil => simp [lookupSetting] at h
  | cons p rest ih =>
    obtain ⟨k, t⟩ := p
    by_cases hk : k = n
    · simp [lookupSetting, hk] at h ⊢
      exact h
    · simp [lookupSetting, hk] at h ⊢
      exact ih h

theorem markFileModified_map_templates (files : List ConfigFile) (i : Nat) :
    (markFileModified files i).map (fun f => f.templates) =
      files.map (fun f => f.templates) := by
  induction files generalizing i with
  | nil => simp [markFileModified]
  | cons f rest ih =>
    cases i with
    | zero => simp [markFileModified]
    | succ n => simp [markFileModified, ih]

theorem fileModified_markFileModified_mono (files : List ConfigFile) (k i : Nat)
    (h : fileModified files i = true) :
    fileModified (markFileModified files k) i = true := by
  induction files generalizing k i with
  | nil => simp [fileModified, fileAt] at h
  | cons f rest ih =>
    cases k with
    | zero =>
      cases i with
      | zero => simp [fileModified, fileAt, markFileModified]
      | succ j => simpa [fileModified, fileAt, markFileModified] using h
    | succ k' =>
      cases i with
      | zero => simpa [fileModified, fileAt, markFileModified] using h
      | succ j =>
        simp only [fileModified, fileAt, markFileModified] at h ⊢
        exact ih k' j h

theorem fileModified_markFileModified_head (f : ConfigFile) (rest : List ConfigFile) :
    fileModified (markFileModified (f :: rest) 0) 0 = true := by
  simp [fileModified, fileAt, markFileModified]

theorem parseLine_preserves_modified (f f' : ConfigFile) (l : String)
    (ev : Option SettingEvent) (h : f.parseLine l = .ok (f', ev)) :
    f'.modified = f.modified := by
  simp only [ConfigFile.parseLine] at h
  split at h
  · simp only [Except.ok.injEq, Prod.mk.injEq] at h
    obtain ⟨h1, -⟩ := h
    subst h1
    rfl
  · split at h
    · simp only [Except.ok.injEq, Prod.mk.injEq] at h
      obtain ⟨h1, -⟩ := h
      subst h1
      rfl
    · split at h
      · simp only [Except.ok.injEq, Prod.mk.injEq] at h
        obtain ⟨h1, -⟩ := h
        subst h1
        rfl
      · split at h
        · simp only [Except.ok.injEq, Prod.mk.injEq] at h
          obtain ⟨h1, -⟩ := h
          subst h1
          rfl
        · split at h
          · simp only [Except.ok.injEq, Prod.mk.injEq] at h
            obtain ⟨h1, -⟩ := h
            subst h1
            rfl
          · exact absurd h (by simp)

theorem parseFileGo_preserves_modified (lines : List String) (f f' : ConfigFile)
    (acc evs : List SettingEvent) (h : parseFileGo f acc lines = .ok (f', evs)) :
    f'.modified = f.modified := by
  induction lines generalizing f acc with
  | nil =>
    simp only [parseFileGo, Except.ok.injEq, Prod.mk.injEq] at h
    obtain ⟨h1, -⟩ := h
    subst h1
    rfl
  | cons l ls ih =>
    simp only [parseFileGo] at h
    split at h
    · exact absurd h (by simp)
    · rename_i g ev heq
      have h1 := ih _ _ h
      have h2 := parseLine_preserves_modified f g l ev heq
      rw [h1, h2]

theorem parseFile_preserves_modified (f f' : ConfigFile) (lines : List String)
    (evs : List SettingEvent) (h : f.parseFile lines = .ok (f', evs)) :
    f'.modified = f.modified :=
  parseFileGo_preserves_modified lines f f' [] evs h

/-! Concrete example states used by counterexamples and witnesses. They mirror
the result of parsing a file containing an active `#define FOO 1` and a
commented-out `// #define BAZ 7` under guard `MBEDTLS_CONFIG_H`. -/

/-- Example file state after parsing: templates for `FOO` (active) and `BAZ`
(known but inactive). -/
def fEx : ConfigFile :=
  { filename := "mbedtls_config.h"
  , templates := [Template.setting "FOO" "" "#define FOO ",
                  Template.setting "BAZ" "" "#define BAZ "]
  , currentSection := none
  , inclusionGuard := some "MBEDTLS_CONFIG_H"
  , modified := false }

/-- Example configuration: `FOO` active with value `1`, `BAZ` known but
inactive with stored value `7`, one owned file. -/
def cEx : Config :=
  { settings := [("FOO", ⟨true, "FOO", some "1", none, 0⟩),
                 ("BAZ", ⟨false, "BAZ", some "7", none, 0⟩)]
  , configfiles := [fEx] }

/-- C1, counterexample: for the known-but-inactive symbol `BAZ`, membership and
`known` behave as claimed, but the strict accessor `config["BAZ"]` does not
raise `KeyError`: it returns the stored value `7`. -/
theorem C1_counterexample :
    cEx.contains "BAZ" = false ∧ cEx.known "BAZ" = true ∧
    cEx.getItem "BAZ" = .ok (some "7") ∧
    cEx.getItem "BAZ" ≠ .error PyError.keyError := by
  refine ⟨rfl, rfl, rfl, ?_⟩
  intro h
  rw [show cEx.getItem "BAZ" = .ok (some "7") from rfl] at h
  exact Except.noConfusion h

/-- C1, amended: for every known-but-inactive symbol, `name in config` is false
and `known(name)` is true, but `config[name]` returns the stored value; the
strict accessor raises `KeyError` exactly for the names that are not known. -/
theorem C1_known_inactive_access (c : Config) (name : String) (s : Setting)
    (hk : lookupSetting c.settings name = some s) (hia : s.active = false) :
    c.contains name = false ∧ c.known name = true ∧
    c.getItem name = .ok s.value ∧
    ∀ (c' : Config) (n' : String), lookupSetting c'.settings n' = none →
      c'.getItem n' = .error PyError.keyError := by
  refine ⟨?_, ?_, ?_, ?_⟩
  · simp [Config.contains, hk, hia]
  · simp [Config.known, hk]
  · simp [Config.getItem, hk]
  · intro c' n' h
    simp [Config.getItem, h]

/-- C1, witness: the amended theorem applied to the example configuration at
the known-but-inactive symbol `BAZ`. -/
theorem C1_witness :
    cEx.contains "BAZ" = false ∧ cEx.known "BAZ" = true ∧
    cEx.getItem "BAZ" = .ok (some "7") ∧
    ∀ (c' : Config) (n' : String), lookupSetting c'.settings n' = none →
      c'.getItem n' = .error PyError.keyError :=
  C1_known_inactive_access cEx "BAZ" ⟨false, "BAZ", some "7", none, 0⟩ rfl rfl

/-- C2, code bug: in the example configuration the file starts unmodified, yet
assigning `FOO` its current value `1` through `config[name] = value` marks the
file modified (the guard `if setting != value:` compares the `Setting` object,
not `setting.value`, to the new value, so it always fires), and `set("FOO")`
on the already-active `FOO` without a new value also marks the file modified
(its guard compares the stored string value against `None`) while changing
neither the value nor the active state. -/
theorem C2_noop_mutations_mark_modified :
    cEx.configfiles.map (fun f => f.modified) = [false] ∧
    (cEx.setItem "FOO" (some "1")).map
        (fun c' => (c'.configfiles.map (fun f => f.modified), c'.getItem "FOO")) =
      .ok ([true], .ok (some "1")) ∧
    (cEx.set "FOO" none).map
        (fun c' => (c'.configfiles.map (fun f => f.modified),
                    c'.getItem "FOO", c'.contains "FOO")) =
      .ok ([true], .ok (some "1"), true) :=
  ⟨rfl, rfl, rfl⟩

/-- C5, code bug: `get` tests `name in self.settings` (known), not `name in
self` (active), so for the known-but-inactive `BAZ` it returns the stored
value `7` instead of the supplied default, contradicting its own docstring;
for an unknown name it does return the default. -/
theorem C5_get_ignores_active :
    cEx.contains "BAZ" = false ∧ cEx.known "BAZ" = true ∧
    cEx.get "BAZ" (some "d") = some "7" ∧
    cEx.get "UNKNOWN" (some "d") = some "d" :=
  ⟨rfl, rfl, rfl, rfl⟩

/-- C9, code bug: for the known symbol `FOO`, `Config.filename` raises
`AttributeError` instead of returning the owner's path, because
`_get_configfile` evaluates `self.get(name).configfile` and `get` returns the
stored value string, which has no `configfile` attribute; for an omitted or
unknown name it returns the first file's path as claimed. -/
theorem C9_filename_attribute_error :
    cEx.known "FOO" = true ∧
    cEx.filename (some "FOO") = .error PyError.attributeError ∧
    cEx.filename none = .ok "mbedtls_config.h" ∧
    cEx.filename (some "UNKNOWN") = .ok "mbedtls_config.h" :=
  ⟨rfl, rfl, rfl, rfl⟩

/-- C3: for an unmodified file, `write` with no filename override, or with a
target equal to the original path, performs no I/O (`.ok none`); moreover a
freshly constructed file starts unmodified and parsing never changes the
`modified` flag, so parse followed by zero mutations followed by `write`
never touches the file. -/
theorem C3_unmodified_write_no_io (f : ConfigFile)
    (settings : List (String × Setting)) (target : Option String)
    (hmod : f.modified = false) (ht : target = none ∨ target = some f.filename) :
    f.write settings target = .ok none ∧
    (∀ path, (ConfigFile.init path).modified = false) ∧
    (∀ (g g' : ConfigFile) (lines : List String) (evs : List SettingEvent),
        g.parseFile lines = .ok (g', evs) → g'.modified = g.modified) := by
  refine ⟨?_, fun _ => rfl,
    fun g g' lines evs h => parseFile_preserves_modified g g' lines evs h⟩
  rcases ht with h | h <;> subst h <;> simp [ConfigFile.write, hmod]

/-- C3, witness: the theorem applied to the example file, which is unmodified,
with no filename override. -/
theorem C3_witness :
    fEx.write cEx.settings none = .ok none ∧
    (∀ path, (ConfigFile.init path).modified = false) ∧
    (∀ (g g' : ConfigFile) (lines : List String) (evs : List SettingEvent),
        g.parseFile lines = .ok (g', evs) → g'.modified = g.modified) :=
  C3_unmodified_write_no_io fEx cEx.settings none rfl (Or.inl rfl)

/-- C10: `unset` on a known name only flips that setting's `active` flag to
false, preserving its `name`, `value`, `section` and owning-file reference;
every other entry of the settings dict is unchanged, the set of known names is
unchanged, and no file's template list is altered. -/
theorem C10_unset_frame (c : Config) (name : String) (s : Setting)
    (hk : lookupSetting c.settings name = some s) :
    lookupSetting (c.unset name).settings name = some { s with active := false } ∧
    (∀ m, m ≠ name →
        lookupSetting (c.unset name).settings m = lookupSetting c.settings m) ∧
    (∀ m, (c.unset name).known m = c.known m) ∧
    (c.unset name).configfiles.map (fun f => f.templates) =
      c.configfiles.map (fun f => f.templates) := by
  have hunset : (c.unset name).settings =
      updateSetting c.settings name (fun t => { t with active := false }) := by
    simp [Config.unset, hk]
  have hfiles : (c.unset name).configfiles =
      (if s.active then markFileModified c.configfiles s.configfile
       else c.configfiles) := by
    simp [Config.unset, hk]
  refine ⟨?_, ?_, ?_, ?_⟩
  · rw [hunset]
    exact lookupSetting_updateSetting_self _ _ _ _ hk
  · intro m hm
    rw [hunset]
    exact lookupSetting_updateSetting_ne _ _ _ _ hm
  · intro m
    by_cases hm : m = name
    · subst hm
      rw [Config.known, Config.known, hunset,
        lookupSetting_updateSetting_self _ _ _ _ hk, hk]
      rfl
    · rw [Config.known, Config.known, hunset,
        lookupSetting_updateSetting_ne _ _ _ _ hm]
  · rw [hfiles]
    split
    · exact markFileModified_map_templates _ _
    · rfl

/-- C10, witness: the theorem applied to the example configuration at the
active symbol `FOO`. -/
theorem C10_witness :
    lookupSetting (cEx.unset "FOO").settings "FOO" =
      some ⟨false, "FOO", some "1", none, 0⟩ ∧
    (∀ m, m ≠ "FOO" →
        lookupSetting (cEx.unset "FOO").settings m = lookupSetting cEx.settings m) ∧
    (∀ m, (cEx.unset "FOO").known m = cEx.known m) ∧
    (cEx.unset "FOO").configfiles.map (fun f => f.templates) =
      cEx.configfiles.map (fun f => f.templates) :=
  C10_unset_frame cEx "FOO" ⟨true, "FOO", some "1", none, 0⟩ rfl

/-- Helper used to state end-to-end rendering examples: apply a mutation that
may raise, then render the given templates from the resulting settings. -/
def mutateThenRender (r : Except PyError Config) (templates : List Template) :
    Except PyError String :=
  match r with
  | .error e => .error e
  | .ok c' => writeToStream c'.settings templates

/-- File state after parsing the single line `// #define FOO`. -/
def fFOO : ConfigFile :=
  { ConfigFile.init "mbedtls_config.h" with
      templates := [Template.setting "FOO" "" "#define FOO"] }

/-- Configuration holding the setting yielded by parsing `// #define FOO`. -/
def cFOO : Config :=
  { settings := [("FOO", ⟨false, "FOO", some "", none, 0⟩)]
  , configfiles := [fFOO] }

/-- File state after parsing the single line `#define BAR`. -/
def fBAR : ConfigFile :=
  { ConfigFile.init "mbedtls_config.h" with
      templates := [Template.setting "BAR" "" "#define BAR"] }

/-- Configuration holding the setting yielded by parsing `#define BAR`. -/
def cBAR : Config :=
  { settings := [("BAR", ⟨true, "BAR", some "", none, 0⟩)]
  , configfiles := [fBAR] }

/-- C6: rendering a parameterized template. If the value is non-empty and the
stored prefix does not end in whitespace, exactly one space is inserted before
the value; if the value is empty, trailing whitespace is stripped from the
prefix; an inactive setting gains a `//` prefix and an active one does not; the
whole line is trimmed of trailing whitespace. In particular `// #define FOO`
followed by `set("FOO")` renders as `#define FOO`, and `#define BAR` followed
by `config["BAR"] = "5"` renders as `#define BAR 5`. -/
theorem C6_format_template :
    (∀ (s : Setting) (indent middle : String) (c : Char),
        pyStr s.value ≠ "" → middle.data.getLast? = some c → isPyWs c = false →
        formatTemplate s indent middle =
          .ok (pyRstrip (indent ++ (if s.active then "" else "//") ++
                (middle ++ " ") ++ pyStr s.value))) ∧
    (∀ (s : Setting) (indent middle : String),
        pyStr s.value = "" →
        formatTemplate s indent middle =
          .ok (pyRstrip (indent ++ (if s.active then "" else "//") ++
                pyRstrip middle ++ pyStr s.value))) ∧
    (ConfigFile.init "mbedtls_config.h").parseLine "// #define FOO" =
      .ok (fFOO, some ⟨false, "FOO", "", none⟩) ∧
    mutateThenRender (cFOO.set "FOO" none) fFOO.templates = .ok "#define FOO\n" ∧
    (ConfigFile.init "mbedtls_config.h").parseLine "#define BAR" =
      .ok (fBAR, some ⟨true, "BAR", "", none⟩) ∧
    mutateThenRender (cBAR.setItem "BAR" (some "5")) fBAR.templates =
      .ok "#define BAR 5\n" := by
  refine ⟨?_, ?_, rfl, rfl, rfl, rfl⟩
  · intro s indent middle c hv hlast hws
    have h1 : ¬(c = '\t') := by
      intro h
      subst h
      simp [isPyWs] at hws
    have h2 : ¬(c = ' ') := by
      intro h
      subst h
      simp [isPyWs] at hws
    simp only [formatTemplate, hlast, if_pos hv]
    simp [h1, h2]
  · intro s indent middle hv
    simp [formatTemplate, hv]

/-- C6, witness: the space-insertion branch applied to an inactive setting with
value `7` and prefix `#define X`, and the whitespace-stripping branch applied
to an active setting with no value and prefix `#define Y `. -/
theorem C6_witness :
    formatTemplate ⟨false, "X", some "7", none, 0⟩ "" "#define X" =
      .ok "//#define X 7" ∧
    formatTemplate ⟨true, "Y", some "", none, 0⟩ "" "#define Y " =
      .ok "#define Y" :=
  ⟨C6_format_template.1 ⟨false, "X", some "7", none, 0⟩ "" "#define X" 'X'
      (by decide) rfl (by decide),
   C6_format_template.2.1 ⟨true, "Y", some "", none, 0⟩ "" "#define Y " rfl⟩

theorem matchIfndef_guard_ne_empty (cs : List Char) (g : String)
    (h : matchIfndef cs = some (.ifndefM g)) : g ≠ "" := by
  unfold matchIfndef at h
  split at h
  · rename_i r
    rcases hsp : List.span isWordChar r with ⟨gl, rest⟩
    simp only [hsp] at h
    by_cases he : gl.isEmpty
    · rw [if_pos he] at h
      exact absurd h (by simp)
    · rw [if_neg he] at h
      simp only [Option.some.injEq, LineMatch.ifndefM.injEq] at h
      intro hg
      have hgl : gl = [] := by simpa using congrArg String.data (h.trans hg)
      rw [hgl] at he
      exact he rfl
  · exact absurd h (by simp)

/-- C7, counterexample: the claim says a second inclusion-guard-shaped line is
processed through the normal define handling, appending a template and
yielding a settings event; in fact parsing a file whose second line is another
`#ifndef` raises `TypeError` (the define-branch template construction
concatenates the unmatched, `None`-valued define groups). -/
theorem C7_counterexample :
    (ConfigFile.init "config.h").parseFile
      ["#ifndef CONFIG_H", "#ifndef SECOND_GUARD"] = .error PyError.typeError :=
  rfl

/-- C7, amended: only the first `#ifndef SYMBOL` line is captured as the
inclusion guard (appended verbatim, yielding no settings event); every later
`#ifndef`-shaped line falls through to the define handling, where building the
template from the unmatched define groups makes the parse fail with
`TypeError` instead of appending a template or yielding a settings event. -/
theorem C7_second_ifndef_type_error (f : ConfigFile) (line : String) (g : String)
    (hdef : matchDefine (rstripCRLF line).data = none)
    (hifn : matchIfndef (rstripCRLF line).data = some (.ifndefM g)) :
    (f.inclusionGuard = none →
        f.parseLine line =
          .ok ({ f with inclusionGuard := some g
                      , templates := f.templates ++ [.verbatim (rstripCRLF line)] },
               none)) ∧
    (∀ g', f.inclusionGuard = some g' → f.parseLine line = .error PyError.typeError) := by
  have hg : g ≠ "" := matchIfndef_guard_ne_empty _ _ hifn
  have hm : matchConfigLine (rstripCRLF line) = some (.ifndefM g) := by
    simp [matchConfigLine, hdef, hifn, Option.orElse]
  constructor
  · intro hnone
    simp [ConfigFile.parseLine, hm, LineMatch.gSection, LineMatch.gInclusionGuard,
      truthyOpt, hg, hnone]
  · intro g' hsome
    simp [ConfigFile.parseLine, hm, LineMatch.gSection, LineMatch.gInclusionGuard,
      LineMatch.gName, LineMatch.gValue, truthyOpt, hg, hsome, pyEqOpt]

/-- C7, witness: the amended theorem applied to a fresh file (the `#ifndef`
line is captured as the guard) and to a file whose guard is already set (the
same line shape makes the parse raise `TypeError`). -/
theorem C7_witness :
    ((ConfigFile.init "p").parseLine "#ifndef GUARD_A" =
        .ok ({ ConfigFile.init "p" with
                 inclusionGuard := some "GUARD_A"
               , templates := [.verbatim "#ifndef GUARD_A"] }, none)) ∧
    ({ ConfigFile.init "p" with inclusionGuard := some "GUARD_A" } : ConfigFile).parseLine
        "#ifndef GUARD_B" = .error PyError.typeError :=
  ⟨(C7_second_ifndef_type_error (ConfigFile.init "p") "#ifndef GUARD_A" "GUARD_A"
      rfl rfl).1 rfl,
   (C7_second_ifndef_type_error
      ({ ConfigFile.init "p" with inclusionGuard := some "GUARD_A" })
      "#ifndef GUARD_B" "GUARD_B" rfl rfl).2 "GUARD_A" rfl⟩

theorem writeToStream_append_ghost (l : List (String × Setting)) (p : String × Setting)
    (ts : List Template)
    (h : ∀ n ind mid, Template.setting n ind mid ∈ ts → (lookupSetting l n).isSome) :
    writeToStream (l ++ [p]) ts = writeToStream l ts := by
  induction ts with
  | nil => rfl
  | cons t rest ih =>
    have hrest : ∀ n ind mid, Template.setting n ind mid ∈ rest →
        (lookupSetting l n).isSome :=
      fun n ind mid hm => h n ind mid (List.mem_cons_of_mem _ hm)
    cases t with
    | verbatim s =>
      simp only [writeToStream]
      rw [ih hrest]
    | setting n ind mid =>
      have hn : (lookupSetting l n).isSome := h n ind mid (List.mem_cons_self _ _)
      rcases hlk : lookupSetting l n with _ | s
      · rw [hlk] at hn
        simp at hn
      · have hlk2 : lookupSetting (l ++ [p]) n = some s :=
          lookupSetting_append_left _ _ _ _ hlk
        simp only [writeToStream, hlk, hlk2]
        rw [ih hrest]

/-- C8: `set` on an unknown name creates a Setting that is active and known,
marks the first owned file modified, appends no template to any file, and
leaves the rendering of any template list that only references previously
known names unchanged — the ghost setting can never appear in written output. -/
theorem C8_ghost_setting (c : Config) (name : String) (value : Option String)
    (f0 : ConfigFile) (rest : List ConfigFile)
    (hunk : lookupSetting c.settings name = none)
    (hfiles : c.configfiles = f0 :: rest) :
    ∃ c', c.set name value = .ok c' ∧
      c'.contains name = true ∧
      c'.known name = true ∧
      fileModified c'.configfiles 0 = true ∧
      c'.configfiles.map (fun f => f.templates) =
        c.configfiles.map (fun f => f.templates) ∧
      ∀ (ts : List Template),
        (∀ n ind mid, Template.setting n ind mid ∈ ts → c.known n = true) →
        writeToStream c'.settings ts = writeToStream c.settings ts := by
  have hset : c.set name value = .ok
      { settings := c.settings ++ [(name, ⟨true, name, value, none, 0⟩)]
      , configfiles := markFileModified c.configfiles 0 } := by
    simp [Config.set, hunk, Config.getConfigfile, hfiles, dictSet]
  refine ⟨_, hset, ?_, ?_, ?_, ?_, ?_⟩
  · simp only [Config.contains]
    rw [lookupSetting_append_of_none _ _ _ hunk]
    simp [lookupSetting]
  · simp only [Config.known]
    rw [lookupSetting_append_of_none _ _ _ hunk]
    simp [lookupSetting]
  · rw [hfiles]
    exact fileModified_markFileModified_head f0 rest
  · exact markFileModified_map_templates c.configfiles 0
  · intro ts hts
    exact writeToStream_append_ghost c.settings (name, ⟨true, name, value, none, 0⟩) ts
      (fun n ind mid hm => by simpa [Config.known] using hts n ind mid hm)

/-- C8, witness: the theorem applied to the example configuration and the
unknown symbol `NEW`. -/
theorem C8_witness :
    ∃ c', cEx.set "NEW" (some "1") = .ok c' ∧
      c'.contains "NEW" = true ∧
      c'.known "NEW" = true ∧
      fileModified c'.configfiles 0 = true ∧
      c'.configfiles.map (fun f => f.templates) =
        cEx.configfiles.map (fun f => f.templates) ∧
      ∀ (ts : List Template),
        (∀ n ind mid, Template.setting n ind mid ∈ ts → cEx.known n = true) →
        writeToStream c'.settings ts = writeToStream cEx.settings ts :=
  C8_ghost_setting cEx "NEW" (some "1") fEx [] rfl rfl

theorem adaptGo_files_mono (ad : String → Bool → Option String → Bool)
    (settings : List (String × Setting)) :
    ∀ (files : List ConfigFile) (i : Nat), fileModified files i = true →
      fileModified (adaptGo ad settings files).2 i = true := by
  induction settings with
  | nil =>
    intro files i h
    simpa [adaptGo] using h
  | cons p rest ih =>
    intro files i h
    obtain ⟨k, s⟩ := p
    have h' : fileModified
        (if ad s.name s.active s.sectionLabel ≠ s.active
         then markFileModified files s.configfile else files) i = true := by
      split
      · exact fileModified_markFileModified_mono _ _ _ h
      · exact h
    rcases hrec : adaptGo ad rest
        (if ad s.name s.active s.sectionLabel ≠ s.active
         then markFileModified files s.configfile else files) with ⟨rest', files''⟩
    have hmono := ih _ i h'
    rw [hrec] at hmono
    simp only [adaptGo, hrec]
    exact hmono

theorem changeMatchingGo_files_mono (search : String → Bool) (enable : Bool)
    (settings : List (String × Setting)) :
    ∀ (files : List ConfigFile) (i : Nat), fileModified files i = true →
      fileModified (changeMatchingGo search enable settings files).2 i = true := by
  induction settings with
  | nil =>
    intro files i h
    simpa [changeMatchingGo] using h
  | cons p rest ih =>
    intro files i h
    obtain ⟨k, s⟩ := p
    by_cases hs : search s.name = true
    · have h' : fileModified
          (if s.active ≠ enable then markFileModified files s.configfile else files)
          i = true := by
        split
        · exact fileModified_markFileModified_mono _ _ _ h
        · exact h
      rcases hrec : changeMatchingGo search enable rest
          (if s.active ≠ enable then markFileModified files s.configfile else files)
          with ⟨rest', files''⟩
      have hmono := ih _ i h'
      rw [hrec] at hmono
      simp only [changeMatchingGo, hs, if_true, hrec]
      exact hmono
    · rcases hrec : changeMatchingGo search enable rest files with ⟨rest', files'⟩
      have hmono := ih _ i h
      rw [hrec] at hmono
      simp only [changeMatchingGo, hs, if_false, hrec]
      exact hmono

theorem Op.apply_fileModified_mono (op : Op) (c : Config) (i : Nat)
    (h : fileModified c.configfiles i = true) :
    fileModified (op.apply c).configfiles i = true := by
  cases op with
  | setItem n v =>
    simp only [Op.apply]
    rcases hlk : lookupSetting c.settings n with _ | s
    · simp [Config.setItem, hlk, h]
    · simp only [Config.setItem, hlk, settingNeValue, if_true]
      exact fileModified_markFileModified_mono _ _ _ h
  | set n v =>
    simp only [Op.apply]
    rcases hlk : lookupSetting c.settings n with _ | s
    · rcases hg : c.getConfigfile (some n) with e | idx
      · simp [Config.set, hlk, hg, h]
      · simp only [Config.set, hlk, hg]
        exact fileModified_markFileModified_mono _ _ _ h
    · simp only [Config.set, hlk]
      split
      · exact fileModified_markFileModified_mono _ _ _ h
      · exact h
  | unset n =>
    simp only [Op.apply]
    rcases hlk : lookupSetting c.settings n with _ | s
    · simp [Config.unset, hlk, h]
    · simp only [Config.unset, hlk]
      split
      · exact fileModified_markFileModified_mono _ _ _ h
      · exact h
  | adapt ad =>
    simp only [Op.apply, Config.adapt]
    rcases hrec : adaptGo ad c.settings c.configfiles with ⟨s', f'⟩
    have hmono := adaptGo_files_mono ad c.settings c.configfiles i h
    rw [hrec] at hmono
    simpa using hmono
  | changeMatching rs search en =>
    simp only [Op.apply, Config.changeMatching]
    split
    · exact h
    · rcases hrec : changeMatchingGo search en c.settings c.configfiles with ⟨s', f'⟩
      have hmono := changeMatchingGo_files_mono search en c.settings c.configfiles i h
      rw [hrec] at hmono
      simpa using hmono
  | write fn =>
    simpa [Op.apply] using h

theorem applyOps_fileModified_mono (ops : List Op) (c : Config) (i : Nat)
    (h : fileModified c.configfiles i = true) :
    fileModified (applyOps c ops).configfiles i = true := by
  induction ops generalizing c with
  | nil => simpa [applyOps] using h
  | cons op rest ih =>
    simp only [applyOps, List.foldl_cons]
    exact ih (op.apply c) (Op.apply_fileModified_mono op c i h)

theorem write_modified_no_skip (f : ConfigFile) (settings : List (String × Setting))
    (t : Option String) (h : f.modified = true) : f.write settings t ≠ .ok none := by
  intro hc
  simp only [ConfigFile.write, h, Bool.not_true, Bool.false_and] at hc
  rw [if_neg (by simp)] at hc
  split at hc <;> simp_all

/-- C4: the dirty flag is sticky. A freshly constructed file starts with
`modified = false`; once the file at any index is modified, no sequence of
API calls — value assignment, set, unset, adapt, bulk change, or write (which
never touches the flag) — ever clears it; and a `write` on a modified file is
never the silent no-op, so it always performs I/O. -/
theorem C4_sticky_modified (c : Config) (ops : List Op) (i : Nat)
    (h : fileModified c.configfiles i = true) :
    fileModified (applyOps c ops).configfiles i = true ∧
    (∀ path, (ConfigFile.init path).modified = false) ∧
    (∀ (f : ConfigFile) (settings : List (String × Setting)) (t : Option String),
        f.modified = true → f.write settings t ≠ .ok none) :=
  ⟨applyOps_fileModified_mono ops c i h, fun _ => rfl,
   fun f settings t hf => write_modified_no_skip f settings t hf⟩

/-- Example configuration whose single file is already marked modified. -/
def cMod : Config :=
  { settings := cEx.settings
  , configfiles := [{ fEx with modified := true }] }

/-- C4, witness: the theorem applied to a modified example configuration and a
sequence that reverts the state (unset then set of the active symbol) with
writes in between. -/
theorem C4_witness :
    fileModified (applyOps cMod
      [Op.unset "FOO", Op.write none, Op.set "FOO" none, Op.write none]).configfiles
      0 = true ∧
    (∀ path, (ConfigFile.init path).modified = false) ∧
    (∀ (f : ConfigFile) (settings : List (String × Setting)) (t : Option String),
        f.modified = true → f.write settings t ≠ .ok none) :=
  C4_sticky_modified cMod
    [Op.unset "FOO", Op.write none, Op.set "FOO" none, Op.write none] 0 rfl
